import Mathlib

/-!
Shallow embedding of the per-device counting worker of `gerbil`
(`src/include/gerbil/GpuHasher.h`, class `gerbil::gpu::HasherTask`).

The worker thread body (lines 130-198 of `GpuHasher.h`) pops k-mer bundles
from its private queue; on a file-id change it extracts and clears its hash
table, reports throughput to the `KmerDistributer`, requests a split ratio,
resizes the table, resets the measurement window, and then inserts the
bundle; after the queue closes it performs one final extract-and-clear and
folds its totals into the shared statistics.

External collaborators (`KmerCountingHashTable`, `KmerDistributer`,
`TempFile`) are modelled by their observable effects: the table keeps a
cumulative total-inserted counter (`getKMersNumber`), the distributor's
`getSplitRatio` and the files' `approximateUniqueKmers(0.9)` are abstract
functions supplied in an environment.  Wall-clock durations of the
extraction and insertion calls are external inputs carried on each bundle.
The worker's externally visible actions are recorded as a trace of events.
-/

namespace Gerbil

/-- Environment of external collaborators: `splitOf devID fileId` models
`KmerDistributer::getSplitRatio(true, devID, fileId)` and `estimate fileId`
models `TempFile::approximateUniqueKmers(0.9)` for that file. -/
structure Env where
  splitOf : Nat → Nat → Rat
  estimate : Nat → Nat

/-- One `gpu::KMerBundle<K>` popped from the device's queue, together with
the externally determined wall-clock microseconds spent by `addBundle` on
it (`insertTime`) and by the `extractAndClear` it triggers when its file id
opens a new file boundary (`extractTime`). `kmers` is the number of k-mers
the bundle inserts into the table's cumulative counter. -/
structure KMerBundle where
  tempFileId : Nat
  kmers : Nat
  insertTime : Nat
  extractTime : Nat
  deriving DecidableEq

/-- Local state of one hasher thread: the tracked file id `curTempFileId`,
the window baseline `binKMers`, the accumulated window `duration` in
microseconds, and the table's cumulative total-inserted counter
(`table->getKMersNumber()`). -/
structure WState where
  curTempFileId : Nat
  binKMers : Nat
  duration : Nat
  counter : Nat
  deriving DecidableEq

/-- Externally visible actions of one hasher thread, in program order. -/
inductive Event where
  | extract (durMicros : Nat)
  | report (devID throughput : Nat)
  | resize (newSize fileId : Nat)
  | insert (fileId : Nat)
  | done
  deriving DecidableEq

def Event.isExtract : Event → Bool
  | .extract _ => true
  | _ => false

def Event.isReport : Event → Bool
  | .report _ _ => true
  | _ => false

def Event.isResize : Event → Bool
  | .resize _ _ => true
  | _ => false

def Event.isInsert : Event → Bool
  | .insert _ => true
  | _ => false

def Event.isDone : Event → Bool
  | .done => true
  | _ => false

/-- Throughput computation of line 163:
`duration.count() != 0 ? processedKMers / duration.count() : 0`.
Both operands are unsigned 64-bit integers in the source, so the quotient
is integer floor division, performed before the assignment to `float`. -/
def throughputOf (processedKMers elapsedMicros : Nat) : Nat :=
  if elapsedMicros ≠ 0 then processedKMers / elapsedMicros else 0

/-- New table capacity of line 171:
`_tempFiles[curTempFileId].approximateUniqueKmers(0.9) * ratio`, the
product truncated to an unsigned integer. -/
def capacityFor (env : Env) (devID fileId : Nat) : Nat :=
  ((env.estimate fileId : Rat) * env.splitOf devID fileId).floor.toNat

/-- File-boundary block of lines 153-178: extract and clear the table,
accumulate the extraction's duration into the window, report the window's
throughput to the distributor, adopt the new file id, request a split
ratio, resize the table, and reset the measurement window (baseline and
duration). -/
def boundaryStep (env : Env) (devID : Nat) (s : WState) (kmb : KMerBundle) :
    WState × List Event :=
  let elapsed := s.duration + kmb.extractTime
  let processedKMers := s.counter - s.binKMers
  let throughput := throughputOf processedKMers elapsed
  let newFileId := kmb.tempFileId
  let newSize := capacityFor env devID newFileId
  ({ curTempFileId := newFileId, binKMers := s.counter, duration := 0,
     counter := s.counter },
   [Event.extract kmb.extractTime, Event.report devID throughput,
    Event.resize newSize newFileId])

/-- Insertion of lines 182-185: `table->addBundle(kmb)` with its duration
added to the current measurement window. -/
def insertStep (s : WState) (kmb : KMerBundle) : WState × Event :=
  ({ s with counter := s.counter + kmb.kmers,
            duration := s.duration + kmb.insertTime },
   Event.insert kmb.tempFileId)

/-- One iteration of the `while (kMerQueue->swapPop(kmb))` loop body
(lines 148-186): the file-boundary block runs exactly when the bundle's
file id differs from the tracked one, and the bundle is inserted in every
iteration. -/
def processBundle (env : Env) (devID : Nat) (s : WState) (kmb : KMerBundle) :
    WState × List Event :=
  if s.curTempFileId ≠ kmb.tempFileId then
    ((insertStep (boundaryStep env devID s kmb).1 kmb).1,
     (boundaryStep env devID s kmb).2 ++
       [(insertStep (boundaryStep env devID s kmb).1 kmb).2])
  else
    ((insertStep s kmb).1, [(insertStep s kmb).2])

/-- The drain loop over the whole bundle sequence delivered by the queue
before it closes, returning the final thread state and the trace of
events in program order. -/
def runBatches (env : Env) (devID : Nat) :
    WState → List KMerBundle → WState × List Event
  | s, [] => (s, [])
  | s, kmb :: rest =>
    ((runBatches env devID (processBundle env devID s kmb).1 rest).1,
     (processBundle env devID s kmb).2 ++
       (runBatches env devID (processBundle env devID s kmb).1 rest).2)

/-- Initial thread state of lines 139-145: `uint32_t curTempFileId = -1`
(the value `2^32 - 1`), `binKMers = 0`, `duration = 0`, and a fresh table. -/
def initState : WState :=
  { curTempFileId := 2 ^ 32 - 1, binKMers := 0, duration := 0, counter := 0 }

/-- Whole run of one hasher thread (lines 130-198): drain the queue, then
after the queue closes perform the final `extractAndClear` (taking
`finalExtractTime` microseconds) and finish. -/
def hashRun (env : Env) (devID : Nat) (batches : List KMerBundle)
    (finalExtractTime : Nat) : WState × List Event :=
  ((runBatches env devID initState batches).1,
   (runBatches env devID initState batches).2 ++
     [Event.extract finalExtractTime, Event.done])

/-- Number of file-id changes the worker observes while draining `batches`
from tracked file id `cur`: exactly the iterations whose pop enters the
file-boundary block of lines 151-179. -/
def boundaries : Nat → List KMerBundle → Nat
  | _, [] => 0
  | cur, kmb :: rest =>
    if cur ≠ kmb.tempFileId then 1 + boundaries kmb.tempFileId rest
    else boundaries kmb.tempFileId rest

/-- Errors of the orchestrator surface.  The source throws a single fatal
configuration error (`std::runtime_error` at line 201 when GPU support is
absent); the spec names the condition `ConfigurationError`. -/
inductive GerbilError where
  | configurationError
  deriving DecidableEq

/-- Modelled from the spec: `KmerCountingHashTable` (whose constructor at
line 92 binds each table to hardware device `i`) is not under `src/`; per
the spec, constructing the orchestrator with a requested device count that
exceeds the available hardware counting devices fails with a
`ConfigurationError`.  On success the constructor yields the per-device
table indices it allocated (lines 85-96). -/
def constructHasherTask (availableDevices numThreads : Nat) :
    Except GerbilError (List Nat) :=
  if numThreads ≤ availableDevices then Except.ok (List.range numThreads)
  else Except.error GerbilError.configurationError

/-- Dispatch of `HasherTask::hash` (lines 121-206): with hardware support
compiled in the threads are spawned; without it the call throws
immediately (lines 200-204) and is never retried. -/
def hashDispatch (gpuSupport : Bool) : Except GerbilError Unit :=
  if gpuSupport then Except.ok () else Except.error GerbilError.configurationError

/-- Concrete environment used to instantiate the theorems below. -/
def envW : Env := { splitOf := fun _ _ => (1 : Rat), estimate := fun _ => 10 }

/-- Concrete bundle of file `0` used to instantiate the theorems below. -/
def bundleA : KMerBundle :=
  { tempFileId := 0, kmers := 1, insertTime := 1, extractTime := 1 }

/-- Concrete bundle of file `1` used to instantiate the theorems below. -/
def bundleB : KMerBundle :=
  { tempFileId := 1, kmers := 1, insertTime := 1, extractTime := 1 }

/-- Concrete bundle whose triggered extraction takes zero microseconds. -/
def bundleZ : KMerBundle :=
  { tempFileId := 0, kmers := 5, insertTime := 0, extractTime := 0 }

/-- Concrete bundle carrying the sentinel file id `2^32 - 1`. -/
def bundleS : KMerBundle :=
  { tempFileId := 2 ^ 32 - 1, kmers := 1, insertTime := 1, extractTime := 1 }

theorem processBundle_of_ne (env : Env) (devID : Nat) (s : WState)
    (kmb : KMerBundle) (h : s.curTempFileId ≠ kmb.tempFileId) :
    processBundle env devID s kmb =
      ({ curTempFileId := kmb.tempFileId, binKMers := s.counter,
         duration := kmb.insertTime, counter := s.counter + kmb.kmers },
       [Event.extract kmb.extractTime,
        Event.report devID
          (throughputOf (s.counter - s.binKMers) (s.duration + kmb.extractTime)),
        Event.resize (capacityFor env devID kmb.tempFileId) kmb.tempFileId,
        Event.insert kmb.tempFileId]) := by
  simp [processBundle, boundaryStep, insertStep, h]

theorem processBundle_of_eq (env : Env) (devID : Nat) (s : WState)
    (kmb : KMerBundle) (h : s.curTempFileId = kmb.tempFileId) :
    processBundle env devID s kmb =
      ({ s with counter := s.counter + kmb.kmers,
                duration := s.duration + kmb.insertTime },
       [Event.insert kmb.tempFileId]) := by
  simp [processBundle, insertStep, h]

theorem processBundle_fst_fileId (env : Env) (devID : Nat) (s : WState)
    (kmb : KMerBundle) :
    (processBundle env devID s kmb).1.curTempFileId = kmb.tempFileId := by
  by_cases h : s.curTempFileId = kmb.tempFileId
  · rw [processBundle_of_eq env devID s kmb h]
    exact h
  · rw [processBundle_of_ne env devID s kmb h]

theorem runBatches_counts (env : Env) (devID : Nat) :
    ∀ (batches : List KMerBundle) (s : WState),
      (runBatches env devID s batches).2.countP Event.isReport =
        (runBatches env devID s batches).2.countP Event.isExtract ∧
      (runBatches env devID s batches).2.countP Event.isDone = 0 := by
  intro batches
  induction batches with
  | nil => intro s; simp [runBatches]
  | cons kmb rest ih =>
    intro s
    by_cases h : s.curTempFileId = kmb.tempFileId
    · rw [runBatches, processBundle_of_eq env devID s kmb h]
      simp [List.countP_append, List.countP_cons, Event.isReport,
        Event.isExtract, Event.isDone, (ih _).1, (ih _).2]
    · rw [runBatches, processBundle_of_ne env devID s kmb h]
      simp [List.countP_append, List.countP_cons, Event.isReport,
        Event.isExtract, Event.isDone, (ih _).1, (ih _).2]

theorem runBatches_extract_count (env : Env) (devID : Nat) :
    ∀ (batches : List KMerBundle) (s : WState),
      (runBatches env devID s batches).2.countP Event.isExtract =
        boundaries s.curTempFileId batches := by
  intro batches
  induction batches with
  | nil => intro s; simp [runBatches, boundaries]
  | cons kmb rest ih =>
    intro s
    by_cases h : s.curTempFileId = kmb.tempFileId
    · rw [runBatches, processBundle_of_eq env devID s kmb h]
      simp [List.countP_append, List.countP_cons, Event.isExtract,
        boundaries, h, ih]
    · rw [runBatches, processBundle_of_ne env devID s kmb h]
      simp [List.countP_append, List.countP_cons, Event.isExtract,
        boundaries, h, ih, Nat.add_comm]

theorem hashRun_decomp (env : Env) (devID : Nat) (batches : List KMerBundle)
    (fT : Nat) :
    (hashRun env devID batches fT).2 =
      (runBatches env devID initState batches).2 ++
        [Event.extract fT, Event.done] := rfl

theorem hashRun_extract_count (env : Env) (devID : Nat)
    (batches : List KMerBundle) (fT : Nat) :
    (hashRun env devID batches fT).2.countP Event.isExtract =
      boundaries initState.curTempFileId batches + 1 := by
  rw [hashRun_decomp]
  simp [List.countP_append, List.countP_cons, Event.isExtract,
    runBatches_extract_count env devID batches initState]

/-- Claim C1: for every batch popped whose file id differs from the tracked
file id, the worker performs exactly one extract-and-clear, then exactly one
table reinitialization, and only after both does it insert the triggering
batch: the events emitted by that loop iteration are literally extract,
report, resize, insert, in that order, holding one extraction, one resize
and one insertion. -/
theorem boundary_extract_before_resize_before_insert (env : Env)
    (devID : Nat) (s : WState) (kmb : KMerBundle)
    (h : s.curTempFileId ≠ kmb.tempFileId) :
    (∃ tp cap,
      (processBundle env devID s kmb).2 =
        [Event.extract kmb.extractTime, Event.report devID tp,
         Event.resize cap kmb.tempFileId, Event.insert kmb.tempFileId]) ∧
    (processBundle env devID s kmb).2.countP Event.isExtract = 1 ∧
    (processBundle env devID s kmb).2.countP Event.isResize = 1 ∧
    (processBundle env devID s kmb).2.countP Event.isInsert = 1 := by
  rw [processBundle_of_ne env devID s kmb h]
  refine ⟨⟨_, _, rfl⟩, ?_, ?_, ?_⟩ <;>
    simp [List.countP_cons, Event.isExtract, Event.isResize, Event.isInsert]

/-- Witness for C1 at the initial state and a concrete bundle of file 0. -/
theorem boundary_extract_before_resize_before_insert_witness :
    initState.curTempFileId ≠ bundleA.tempFileId ∧
    ((∃ tp cap,
      (processBundle envW 0 initState bundleA).2 =
        [Event.extract bundleA.extractTime, Event.report 0 tp,
         Event.resize cap bundleA.tempFileId,
         Event.insert bundleA.tempFileId]) ∧
    (processBundle envW 0 initState bundleA).2.countP Event.isExtract = 1 ∧
    (processBundle envW 0 initState bundleA).2.countP Event.isResize = 1 ∧
    (processBundle envW 0 initState bundleA).2.countP Event.isInsert = 1) :=
  ⟨by decide,
   boundary_extract_before_resize_before_insert envW 0 initState bundleA
     (by decide)⟩

/-- Claim C2 counterexample: for the stream of three bundles of file 0
followed by two bundles of file 1, the worker performs three
extract-and-clear calls over its whole run, not two: the tracked file id
starts at the sentinel `2^32 - 1`, so the very first pop already triggers an
extraction of the still-empty table, besides the one at the 4th pop and the
final one at end of stream. -/
theorem scenarioA_two_extractions_false :
    (hashRun envW 0 [bundleA, bundleA, bundleA, bundleB, bundleB] 1).2.countP
        Event.isExtract = 3 ∧
    ¬ (hashRun envW 0 [bundleA, bundleA, bundleA, bundleB, bundleB] 1).2.countP
        Event.isExtract = 2 := by
  decide

/-- Claim C2 amended: for a stream of three bundles of file A followed by two
bundles of file B (A and B distinct, A not the sentinel `2^32 - 1`), the
worker performs exactly 3 extractions over its whole run: one when the first
pop reveals file A (the sentinel boundary), one when the 4th pop reveals
file B, and one at end of stream. -/
theorem scenarioA_three_extractions (env : Env) (devID fA fB fT : Nat)
    (a1 a2 a3 b1 b2 : KMerBundle)
    (ha1 : a1.tempFileId = fA) (ha2 : a2.tempFileId = fA)
    (ha3 : a3.tempFileId = fA) (hb1 : b1.tempFileId = fB)
    (hb2 : b2.tempFileId = fB) (hAB : fA ≠ fB) (hA : fA ≠ 2 ^ 32 - 1) :
    (hashRun env devID [a1, a2, a3, b1, b2] fT).2.countP Event.isExtract
      = 3 := by
  rw [hashRun_extract_count]
  have h0 : initState.curTempFileId ≠ fA := fun hh => hA hh.symm
  simp [boundaries, ha1, ha2, ha3, hb1, hb2, hAB, h0]

/-- Witness for the amended C2 at concrete bundles of files 0 and 1. -/
theorem scenarioA_three_extractions_witness :
    ((0 : Nat) ≠ 1 ∧ (0 : Nat) ≠ 2 ^ 32 - 1) ∧
    (hashRun envW 7 [bundleA, bundleA, bundleA, bundleB, bundleB] 1).2.countP
        Event.isExtract = 3 :=
  ⟨⟨by decide, by decide⟩,
   scenarioA_three_extractions envW 7 0 1 1 bundleA bundleA bundleA bundleB
     bundleB rfl rfl rfl rfl rfl (by decide) (by decide)⟩

/-- Claim C3 counterexample: for a single-bundle stream the whole trace is
extract, report, resize, insert, extract, done — two extractions but only
one throughput report: the final extraction triggered by end of stream
(line 190) is not followed by any `updateThroughput` call, so the worker
does not report once per extraction window, and no report precedes Done
after the final extraction. -/
theorem final_extraction_unreported :
    (hashRun envW 0 [bundleA] 1).2 =
      [Event.extract 1, Event.report 0 0, Event.resize (capacityFor envW 0 0) 0,
       Event.insert 0, Event.extract 1, Event.done] ∧
    (hashRun envW 0 [bundleA] 1).2.countP Event.isReport = 1 ∧
    (hashRun envW 0 [bundleA] 1).2.countP Event.isExtract = 2 :=
  ⟨rfl, by decide, by decide⟩

/-- Claim C3 amended: the worker reports (device id, throughput) to the
distributor exactly once per file-boundary extraction; the final
end-of-stream extraction is not followed by a report: every trace ends with
that extraction and Done, and the number of reports equals the number of
extractions minus one. -/
theorem report_once_per_boundary_extraction (env : Env) (devID : Nat)
    (batches : List KMerBundle) (fT : Nat) :
    ∃ pre,
      (hashRun env devID batches fT).2 =
        pre ++ [Event.extract fT, Event.done] ∧
      pre.countP Event.isReport = pre.countP Event.isExtract ∧
      (hashRun env devID batches fT).2.countP Event.isReport + 1 =
        (hashRun env devID batches fT).2.countP Event.isExtract := by
  refine ⟨(runBatches env devID initState batches).2,
    hashRun_decomp env devID batches fT,
    (runBatches_counts env devID batches initState).1, ?_⟩
  rw [hashRun_decomp]
  simp [List.countP_append, List.countP_cons, Event.isReport, Event.isExtract,
    (runBatches_counts env devID batches initState).1]

/-- Claim C4: on every file-boundary resize the worker reinitializes the
table with capacity `approximateUniqueKmers(0.9) * getSplitRatio(devID,
newFileId)` (the `capacityFor` product), resets the measurement window —
baseline equal to the table's cumulative total-inserted counter and elapsed
time zero at the end of the boundary block, so that only the triggering
insertion contributes to the new window — and adopts the new file id. -/
theorem resize_capacity_and_window_reset (env : Env) (devID : Nat)
    (s : WState) (kmb : KMerBundle) (h : s.curTempFileId ≠ kmb.tempFileId) :
    (boundaryStep env devID s kmb).1 =
      { curTempFileId := kmb.tempFileId, binKMers := s.counter,
        duration := 0, counter := s.counter } ∧
    Event.resize (capacityFor env devID kmb.tempFileId) kmb.tempFileId ∈
      (processBundle env devID s kmb).2 ∧
    (processBundle env devID s kmb).1 =
      { curTempFileId := kmb.tempFileId, binKMers := s.counter,
        duration := kmb.insertTime, counter := s.counter + kmb.kmers } := by
  rw [processBundle_of_ne env devID s kmb h]
  exact ⟨rfl, by simp, rfl⟩

/-- Witness for C4 at the initial state and a concrete bundle of file 0. -/
theorem resize_capacity_and_window_reset_witness :
    initState.curTempFileId ≠ bundleA.tempFileId ∧
    ((boundaryStep envW 0 initState bundleA).1 =
      { curTempFileId := bundleA.tempFileId, binKMers := initState.counter,
        duration := 0, counter := initState.counter } ∧
    Event.resize (capacityFor envW 0 bundleA.tempFileId) bundleA.tempFileId ∈
      (processBundle envW 0 initState bundleA).2 ∧
    (processBundle envW 0 initState bundleA).1 =
      { curTempFileId := bundleA.tempFileId, binKMers := initState.counter,
        duration := bundleA.insertTime,
        counter := initState.counter + bundleA.kmers }) :=
  ⟨by decide,
   resize_capacity_and_window_reset envW 0 initState bundleA (by decide)⟩

/-- Claim C5: a measurement window whose total elapsed time is zero reports
throughput exactly 0; the computation is total (the division is guarded by
the zero test of line 163, so it never divides by zero) and its value is a
natural number, hence never negative or undefined. -/
theorem zero_elapsed_reports_zero (env : Env) (devID : Nat) (s : WState)
    (kmb : KMerBundle) (h : s.duration + kmb.extractTime = 0) :
    Event.report devID 0 ∈ (boundaryStep env devID s kmb).2 ∧
    (∀ p : Nat, throughputOf p 0 = 0) ∧
    (∀ p d : Nat, 0 ≤ throughputOf p d) := by
  refine ⟨?_, fun p => by simp [throughputOf], fun p d => Nat.zero_le _⟩
  simp [boundaryStep, h, throughputOf]

/-- Witness for C5 at a window of elapsed time zero. -/
theorem zero_elapsed_reports_zero_witness :
    initState.duration + bundleZ.extractTime = 0 ∧
    (Event.report 0 0 ∈ (boundaryStep envW 0 initState bundleZ).2 ∧
     (∀ p : Nat, throughputOf p 0 = 0) ∧
     (∀ p d : Nat, 0 ≤ throughputOf p d)) :=
  ⟨by decide, zero_elapsed_reports_zero envW 0 initState bundleZ (by decide)⟩

/-- Claim C6: closure of the worker's input queue triggers exactly one final
extract-and-clear, after which the worker finishes: every trace ends with a
single extract event directly followed by Done, the preceding prefix holding
no Done; and an empty stream — whose table was never written — still gets
exactly that one final extraction. -/
theorem end_of_stream_single_final_extraction (env : Env) (devID : Nat)
    (batches : List KMerBundle) (fT : Nat) :
    (∃ pre,
      (hashRun env devID batches fT).2 =
        pre ++ [Event.extract fT, Event.done] ∧
      pre.countP Event.isDone = 0) ∧
    (hashRun env devID [] fT).2 = [Event.extract fT, Event.done] :=
  ⟨⟨(runBatches env devID initState batches).2,
    hashRun_decomp env devID batches fT,
    (runBatches_counts env devID batches initState).2⟩, rfl⟩

/-- Claim C7: requesting more device threads than the hardware offers fails
with a ConfigurationError at construction (the device-binding table class is
outside src/, so this check is modelled from the spec), and calling hash
while hardware support is absent fails with the same fatal error
(lines 200-204); both are plain error returns, never retried. -/
theorem excess_device_count_configuration_error
    (availableDevices numThreads : Nat) (h : availableDevices < numThreads) :
    constructHasherTask availableDevices numThreads =
      Except.error GerbilError.configurationError ∧
    hashDispatch false = Except.error GerbilError.configurationError := by
  refine ⟨?_, rfl⟩
  simp [constructHasherTask, Nat.not_le.mpr h]

/-- Witness for C7 with one available device and two requested threads. -/
theorem excess_device_count_configuration_error_witness :
    (1 : Nat) < 2 ∧
    (constructHasherTask 1 2 = Except.error GerbilError.configurationError ∧
     hashDispatch false = Except.error GerbilError.configurationError) :=
  ⟨by decide, excess_device_count_configuration_error 1 2 (by decide)⟩

/-- Claim C8: the tracked file id starts at the sentinel `2^32 - 1`
(`uint32_t curTempFileId = -1`, line 139); a stream whose first bundle
carries any other file id opens with an extraction of the still-empty table,
a report, a resize and only then the first insertion, while a first bundle
carrying exactly `2^32 - 1` skips the initial extraction and resize
entirely, its trace opening directly with the insertion. -/
theorem sentinel_initial_file_id (env : Env) (devID : Nat)
    (kmb kmb' : KMerBundle) (rest : List KMerBundle) (fT : Nat)
    (h : kmb.tempFileId ≠ 2 ^ 32 - 1) (h' : kmb'.tempFileId = 2 ^ 32 - 1) :
    initState.curTempFileId = 2 ^ 32 - 1 ∧
    (∃ tp cap tail,
      (hashRun env devID (kmb :: rest) fT).2 =
        Event.extract kmb.extractTime :: Event.report devID tp ::
          Event.resize cap kmb.tempFileId ::
            Event.insert kmb.tempFileId :: tail) ∧
    (∃ tail,
      (hashRun env devID (kmb' :: rest) fT).2 =
        Event.insert kmb'.tempFileId :: tail) := by
  refine ⟨rfl, ?_, ?_⟩
  · rw [hashRun_decomp, runBatches,
      processBundle_of_ne env devID initState kmb (fun hh => h hh.symm)]
    exact ⟨_, _, _, rfl⟩
  · rw [hashRun_decomp, runBatches,
      processBundle_of_eq env devID initState kmb' h'.symm]
    exact ⟨_, rfl⟩

/-- Witness for C8 at a first bundle of file 0 and a first bundle carrying
the sentinel id. -/
theorem sentinel_initial_file_id_witness :
    (bundleA.tempFileId ≠ 2 ^ 32 - 1 ∧ bundleS.tempFileId = 2 ^ 32 - 1) ∧
    (initState.curTempFileId = 2 ^ 32 - 1 ∧
     (∃ tp cap tail,
       (hashRun envW 0 [bundleA] 0).2 =
         Event.extract bundleA.extractTime :: Event.report 0 tp ::
           Event.resize cap bundleA.tempFileId ::
             Event.insert bundleA.tempFileId :: tail) ∧
     (∃ tail,
       (hashRun envW 0 [bundleS] 0).2 =
         Event.insert bundleS.tempFileId :: tail)) :=
  ⟨⟨by decide, by decide⟩,
   sentinel_initial_file_id envW 0 bundleA bundleS [] 0 (by decide)
     (by decide)⟩

/-- Claim C9: the elapsed time entering a window's throughput quotient is
the accumulated insertion time plus the duration of that window's own
extract-and-clear (line 159 adds the extraction's duration before line 163
takes the quotient); it is not the insertion time alone, as the concrete
instance in the second conjunct separates the two. -/
theorem window_elapsed_includes_extraction_time (env : Env) (devID : Nat)
    (s : WState) (kmb : KMerBundle) :
    (boundaryStep env devID s kmb).2 =
      [Event.extract kmb.extractTime,
       Event.report devID
         (throughputOf (s.counter - s.binKMers)
           (s.duration + kmb.extractTime)),
       Event.resize (capacityFor env devID kmb.tempFileId) kmb.tempFileId] ∧
    throughputOf 10 (1 + 9) ≠ throughputOf 10 1 :=
  ⟨rfl, by decide⟩

/-- Claim C10: for positive elapsed time the throughput is the integer floor
quotient of processed k-mers by elapsed microseconds (both unsigned, the
quotient taken before any conversion), so any window that processes fewer
k-mers than its elapsed microsecond count reports exactly 0. -/
theorem throughput_integer_floor_division (p d : Nat) (h : d ≠ 0) :
    throughputOf p d = p / d ∧ (p < d → throughputOf p d = 0) := by
  constructor
  · simp [throughputOf, h]
  · intro hpd
    simp [throughputOf, h, Nat.div_eq_of_lt hpd]

/-- Witness for C10 at 3 processed k-mers over 5 microseconds. -/
theorem throughput_integer_floor_division_witness :
    throughputOf 3 5 = 0 ∧
    (throughputOf 3 5 = 3 / 5 ∧ (3 < 5 → throughputOf 3 5 = 0)) :=
  ⟨by decide, throughput_integer_floor_division 3 5 (by decide)⟩

end Gerbil
